import Mathlib

/-!
Shallow embedding of the webcloner repository's validation, submission,
progress-display, polling, API-client, and session-lifecycle logic, together
with theorems that check the specification's claims against it.

Frontend code (URL validation, the URLInput submit handler, the
ProgressTracker mean, the CloneInterface poller, the ApiClient request
wrapper) is embedded from the TypeScript sources.  The backend Session Store
and Stage Pipeline Runner are not among the provided sources (the backend
directory carries only packaging metadata), so those parts are modelled from
the specification and marked as such on each definition.
-/

namespace WebCloner

/-- Result record returned by `validateUrl` (frontend/src/utils/validation.ts).
The optional TypeScript field `error?` becomes `Option String`. -/
structure ValidationResult where
  isValid : Bool
  error : Option String
  deriving DecidableEq, Repr

/-- Hostname-bearing result of the JavaScript `new URL(url)` constructor.
The browser URL parser is a platform primitive, so it enters the embedding as
an explicit parameter of type `String → Option ParsedUrl`; `none` models a
parse failure (a malformed URL). -/
structure ParsedUrl where
  hostname : String
  deriving DecidableEq, Repr

/-- Embedding of JavaScript `String.prototype.toLowerCase`, character by
character. -/
def lowerStr (s : String) : String :=
  ⟨s.data.map Char.toLower⟩

/-- Embedding of JavaScript `String.prototype.trim`: drop whitespace from both
ends, written over the character list so it is kernel-computable. -/
def trimStr (s : String) : String :=
  ⟨((s.data.dropWhile Char.isWhitespace).reverse.dropWhile Char.isWhitespace).reverse⟩

/-- The forbidden host list of `validateUrl` (validation.ts lines 21-26). -/
def forbiddenHosts : List String :=
  ["localhost", "127.0.0.1", "0.0.0.0", "::1"]

/-- Embedding of the anchored test `hostname.match(/^192\.168\./)`: an
anchored match of a literal pattern is a string-prefix test. -/
def matches192168 (h : String) : Bool :=
  "192.168.".data.isPrefixOf h.data

/-- Embedding of `hostname.match(/^10\./)`. -/
def matches10 (h : String) : Bool :=
  "10.".data.isPrefixOf h.data

/-- Embedding of `hostname.match(/^172\.(1[6-9]|2[0-9]|3[0-1])\./)`: the
alternation enumerates exactly the decimal second octets 16 through 31. -/
def matches172 (h : String) : Bool :=
  (List.range 16).any fun i =>
    (("172." ++ toString (16 + i) ++ ".").data).isPrefixOf h.data

/-- Modelled from the spec: `isValidUrl` lives in `utils/helpers.ts`, which is
not among the provided sources; the spec's Validator collaborator rejects
malformed URLs, so well-formedness is modelled as success of the URL parse. -/
def isValidUrl (parse : String → Option ParsedUrl) (url : String) : Bool :=
  (parse url).isSome

/-- Embedding of `validateUrl` (frontend/src/utils/validation.ts lines 8-36):
reject blank input, then malformed URLs, then hosts on the forbidden list or
matching one of the three private-range patterns.  Since `isValidUrl` is
modelled as parse success, the `new URL(url)` call that follows the
well-formedness check is merged into a single `match` on the parse result. -/
def validateUrl (parse : String → Option ParsedUrl) (url : String) :
    ValidationResult :=
  if trimStr url = "" then ⟨false, some "URL is required"⟩
  else
    match parse url with
    | none => ⟨false, some "Please enter a valid URL"⟩
    | some urlObj =>
      let hostname := lowerStr urlObj.hostname
      if forbiddenHosts.contains hostname || matches192168 hostname ||
          matches10 hostname || matches172 hostname then
        ⟨false, some "Local URLs are not allowed for security reasons"⟩
      else
        ⟨true, none⟩

/-- Canonical dotted-decimal rendering of an IPv4 address, used to state which
hostnames lie in a private address range. -/
def renderIPv4 (a b c d : Nat) : String :=
  toString a ++ "." ++ toString b ++ "." ++ toString c ++ "." ++ toString d

/-- Quality tiers, from the `CLONE_QUALITY` constant. -/
inductive Quality where
  | fast
  | balanced
  | high
  deriving DecidableEq, Repr

/-- Form data gathered by the `URLInput` component (URLInput.tsx). -/
structure URLInputData where
  url : String
  quality : Quality
  include_images : Bool
  include_styling : Bool
  custom_instructions : Option String
  deriving DecidableEq, Repr

/-- Observable outcome of one run of `handleSubmit` in `URLInput.tsx`: the
error recorded via `setUrlError`, and the data passed to `onSubmit` (`none`
when `onSubmit` was not invoked). -/
structure SubmitOutcome where
  urlError : Option String
  submitted : Option URLInputData
  deriving DecidableEq, Repr

/-- Embedding of `handleSubmit` (URLInput.tsx lines 94-106): validate the URL;
on failure record `validation.error || 'Invalid URL'` (JavaScript `||` also
replaces an empty string) and return without calling `onSubmit`; otherwise
invoke `onSubmit(formData)`. -/
def handleSubmit (parse : String → Option ParsedUrl) (formData : URLInputData) :
    SubmitOutcome :=
  let validation := validateUrl parse formData.url
  if validation.isValid then
    ⟨none, some formData⟩
  else
    ⟨some (match validation.error with
      | some e => if e = "" then "Invalid URL" else e
      | none => "Invalid URL"), none⟩

/-- Session status values, from the `CLONE_STATUS` constant
(src/unnamed/part_002) and the frontend `CloneStatus` union type. -/
inductive CloneStatus where
  | pending
  | analyzing
  | scraping
  | generating
  | refining
  | completed
  | failed
  deriving DecidableEq, Repr

/-- String value of each status, as in the `CLONE_STATUS` constant. -/
def CloneStatus.toName : CloneStatus → String
  | .pending => "pending"
  | .analyzing => "analyzing"
  | .scraping => "scraping"
  | .generating => "generating"
  | .refining => "refining"
  | .completed => "completed"
  | .failed => "failed"

/-- The values of the `CLONE_STATUS` constant in declaration order
(src/unnamed/part_002 lines 13-21). -/
def CLONE_STATUS_values : List String :=
  ["pending", "analyzing", "scraping", "generating", "refining", "completed",
   "failed"]

/-- Stage-progress entry as consumed by the frontend `ProgressTracker`
(the `ProgressStep` shape of `types/api`); percentages are JavaScript numbers,
embedded as rationals. -/
structure ProgressStep where
  step_name : String
  status : CloneStatus
  progress_percentage : ℚ
  message : Option String
  error : Option String
  deriving DecidableEq, Repr

/-- Embedding of the `overallProgress` computation in `ProgressTracker.tsx`
lines 56-58: `steps.length > 0 ? steps.reduce((sum, step) => sum +
step.progress_percentage, 0) / steps.length : 0`. -/
def overallProgress (steps : List ProgressStep) : ℚ :=
  if steps.length > 0 then
    (steps.foldl (fun sum step => sum + step.progress_percentage) 0) /
      (steps.length : ℚ)
  else 0

theorem handleSubmit_blocked (parse : String → Option ParsedUrl)
    (fd : URLInputData) (h : (validateUrl parse fd.url).isValid = false) :
    (handleSubmit parse fd).submitted = none := by
  simp [handleSubmit, h]

theorem foldl_add_progress (l : List ProgressStep) (a : ℚ) :
    l.foldl (fun sum step => sum + step.progress_percentage) a
      = a + (l.map (fun step => step.progress_percentage)).sum := by
  induction l generalizing a with
  | nil => simp
  | cons x xs ih => simp [ih, add_assoc]

/-- C1: every URL whose parsed hostname (after the `toLowerCase` the code
applies) is one of the four loopback hosts or is the dotted-decimal form of an
address in 10.0.0.0/8, 192.168.0.0/16, or 172.16.0.0/12 is rejected by
`validateUrl` with `isValid = false` and a non-empty error message, and the
`URLInput` submit handler never forwards such a URL to `onSubmit`, so no clone
request is sent for it. -/
theorem validateUrl_rejects_forbidden_hosts
    (parse : String → Option ParsedUrl) (url : String) (u : ParsedUrl)
    (hp : parse url = some u)
    (hforb :
      lowerStr u.hostname ∈ forbiddenHosts ∨
      (∃ b c d, b < 256 ∧ c < 256 ∧ d < 256 ∧
        lowerStr u.hostname = renderIPv4 10 b c d) ∨
      (∃ c d, c < 256 ∧ d < 256 ∧
        lowerStr u.hostname = renderIPv4 192 168 c d) ∨
      (∃ b c d, 16 ≤ b ∧ b ≤ 31 ∧ c < 256 ∧ d < 256 ∧
        lowerStr u.hostname = renderIPv4 172 b c d)) :
    (validateUrl parse url).isValid = false ∧
    (∃ e, (validateUrl parse url).error = some e ∧ e ≠ "") ∧
    ∀ fd : URLInputData, fd.url = url →
      (handleSubmit parse fd).submitted = none := by
  have hmain : validateUrl parse url = ⟨false, some "URL is required"⟩ ∨
      validateUrl parse url =
        ⟨false, some "Local URLs are not allowed for security reasons"⟩ := by
    by_cases htrim : trimStr url = ""
    · left
      simp [validateUrl, htrim]
    · right
      rcases hforb with hmem | ⟨b, c, d, _, _, _, heq⟩ |
        ⟨c, d, _, _, heq⟩ | ⟨b, c, d, hb1, hb2, _, _, heq⟩
      · simp [validateUrl, htrim, hp, hmem]
      · have hc : matches10 (lowerStr u.hostname) = true := by
          rw [heq]
          unfold matches10
          apply List.isPrefixOf_iff_prefix.mpr
          refine ⟨(toString b).data ++ ".".data ++ (toString c).data ++
            ".".data ++ (toString d).data, ?_⟩
          simp [renderIPv4, String.data_append, List.append_assoc]
          rfl
        simp [validateUrl, htrim, hp, hc]
      · have hc : matches192168 (lowerStr u.hostname) = true := by
          rw [heq]
          unfold matches192168
          apply List.isPrefixOf_iff_prefix.mpr
          refine ⟨(toString c).data ++ ".".data ++ (toString d).data, ?_⟩
          simp [renderIPv4, String.data_append, List.append_assoc]
          rfl
        simp [validateUrl, htrim, hp, hc]
      · have hc : matches172 (lowerStr u.hostname) = true := by
          rw [heq]
          unfold matches172
          rw [List.any_eq_true]
          refine ⟨b - 16, List.mem_range.mpr (by omega), ?_⟩
          have hbeq : 16 + (b - 16) = b := by omega
          rw [hbeq]
          apply List.isPrefixOf_iff_prefix.mpr
          refine ⟨(toString c).data ++ ".".data ++ (toString d).data, ?_⟩
          simp [renderIPv4, String.data_append, List.append_assoc]
          rfl
        simp [validateUrl, htrim, hp, hc]
  rcases hmain with h | h
  · exact ⟨by rw [h], ⟨"URL is required", by rw [h], by decide⟩,
      fun fd hfd => handleSubmit_blocked parse fd (by rw [hfd, h])⟩
  · exact ⟨by rw [h],
      ⟨"Local URLs are not allowed for security reasons", by rw [h], by decide⟩,
      fun fd hfd => handleSubmit_blocked parse fd (by rw [hfd, h])⟩

/-- Witness for C1 at the spec's own example input `http://127.0.0.1/x`. -/
theorem validateUrl_rejects_forbidden_hosts_witness :
    (validateUrl
        (fun s => if s = "http://127.0.0.1/x" then some ⟨"127.0.0.1"⟩ else none)
        "http://127.0.0.1/x").isValid = false ∧
    (∃ e, (validateUrl
        (fun s => if s = "http://127.0.0.1/x" then some ⟨"127.0.0.1"⟩ else none)
        "http://127.0.0.1/x").error = some e ∧ e ≠ "") ∧
    ∀ fd : URLInputData, fd.url = "http://127.0.0.1/x" →
      (handleSubmit
        (fun s => if s = "http://127.0.0.1/x" then some ⟨"127.0.0.1"⟩ else none)
        fd).submitted = none :=
  validateUrl_rejects_forbidden_hosts _ _ ⟨"127.0.0.1"⟩ (by decide)
    (Or.inl (by decide))

/-- C8: the `URLInput` submit handler records an error and does not invoke
`onSubmit` whenever `validateUrl` fails, and invokes `onSubmit` (with the
unchanged form data) exactly when `validateUrl` returns `isValid = true`. -/
theorem handleSubmit_gates_onSubmit (parse : String → Option ParsedUrl)
    (fd : URLInputData) :
    ((validateUrl parse fd.url).isValid = false →
      (handleSubmit parse fd).submitted = none ∧
      (handleSubmit parse fd).urlError.isSome = true) ∧
    ((handleSubmit parse fd).submitted.isSome = true →
      (validateUrl parse fd.url).isValid = true) ∧
    ((validateUrl parse fd.url).isValid = true →
      (handleSubmit parse fd).submitted = some fd ∧
      (handleSubmit parse fd).urlError = none) := by
  by_cases hv : (validateUrl parse fd.url).isValid = true
  · simp [handleSubmit, hv]
  · have hv' : (validateUrl parse fd.url).isValid = false := by
      revert hv
      cases (validateUrl parse fd.url).isValid <;> simp
    simp [handleSubmit, hv']

/-- Witness for C8: a blank URL fails validation and is not submitted. -/
theorem handleSubmit_gates_onSubmit_witness :
    (handleSubmit (fun _ => none)
      ⟨"", Quality.balanced, true, true, none⟩).submitted = none ∧
    (handleSubmit (fun _ => none)
      ⟨"", Quality.balanced, true, true, none⟩).urlError.isSome = true :=
  (handleSubmit_gates_onSubmit (fun _ => none)
    ⟨"", Quality.balanced, true, true, none⟩).1 (by decide)

/-- C2: for a non-empty progress list, the overall progress displayed by
`ProgressTracker` equals the unweighted arithmetic mean of the Stage Records'
`progress_percentage` values: their sum divided by the number of stage
entries, with no duration weighting. -/
theorem overallProgress_unweighted_mean (steps : List ProgressStep)
    (h : steps ≠ []) :
    overallProgress steps =
      (steps.map (fun step => step.progress_percentage)).sum /
        (steps.length : ℚ) := by
  unfold overallProgress
  rw [if_pos (List.length_pos.mpr h), foldl_add_progress]
  simp

/-- Witness for C2 on a two-stage progress list. -/
theorem overallProgress_unweighted_mean_witness :
    overallProgress [⟨"analyzing", CloneStatus.analyzing, 50, none, none⟩,
        ⟨"scraping", CloneStatus.scraping, 100, none, none⟩] =
      (([⟨"analyzing", CloneStatus.analyzing, 50, none, none⟩,
        ⟨"scraping", CloneStatus.scraping, 100, none, none⟩] :
          List ProgressStep).map (fun step => step.progress_percentage)).sum /
        (([⟨"analyzing", CloneStatus.analyzing, 50, none, none⟩,
        ⟨"scraping", CloneStatus.scraping, 100, none, none⟩] :
          List ProgressStep).length : ℚ) :=
  overallProgress_unweighted_mean _ (by simp)

/-- C9: with an empty progress list the overall progress computation takes the
guarded branch and returns exactly 0, with no division by the zero length. -/
theorem overallProgress_empty : overallProgress [] = 0 := rfl

/-- Pipeline stage names, a separate finite type for the four working
stages. -/
inductive Stage where
  | analyzing
  | scraping
  | generating
  | refining
  deriving DecidableEq, Repr

/-- Session status corresponding to a pipeline stage. -/
def Stage.toStatus : Stage → CloneStatus
  | .analyzing => .analyzing
  | .scraping => .scraping
  | .generating => .generating
  | .refining => .refining

/-- Modelled from the spec: the ordered stage sequence executed by the Stage
Pipeline Runner, whose implementation is not among the provided sources. -/
def pipelineStages : List Stage :=
  [.analyzing, .scraping, .generating, .refining]

/-- Terminal statuses (`completed` and `failed`). -/
def CloneStatus.isTerminal : CloneStatus → Bool
  | .completed => true
  | .failed => true
  | _ => false

/-- Position of each status in the forward order of the lifecycle; `failed`
sits outside the forward order and gets the largest rank. -/
def CloneStatus.rank : CloneStatus → Nat
  | .pending => 0
  | .analyzing => 1
  | .scraping => 2
  | .generating => 3
  | .refining => 4
  | .completed => 5
  | .failed => 6

/-- Modelled from the spec: the `result` payload of a completed session
(generated HTML, optional CSS, similarity score, generation time, token
usage). -/
structure CloneResult where
  html_content : String
  css_content : Option String
  similarity_score : ℚ
  generation_time : ℚ
  token_usage : Nat
  deriving DecidableEq, Repr

/-- Clone request body (spec section 6, matching the frontend request
construction in `CloneInterface`). -/
structure CloneRequest where
  url : String
  quality : Quality
  include_images : Bool
  include_styling : Bool
  max_depth : Nat
  custom_instructions : Option String
  deriving DecidableEq, Repr

/-- Modelled from the spec: the Stage Record snapshot kept per pipeline stage;
the optional timestamps are abstracted to a completion flag. -/
structure StageRecord where
  step_name : Stage
  status : CloneStatus
  progress_percentage : ℚ
  completed : Bool
  message : Option String
  error : Option String
  deriving DecidableEq, Repr

/-- Modelled from the spec: one Session record of the Session Store (the
frontend `CloneResponse` mirrors this shape); timestamps are outside the
claims' scope and omitted. -/
structure Session where
  session_id : String
  status : CloneStatus
  request : CloneRequest
  progress : List StageRecord
  result : Option CloneResult
  error_message : Option String
  deriving DecidableEq, Repr

/-- Modelled from the spec: outcome reported by a stage's external
collaborator. -/
inductive StageOutcome where
  | success
  | failure (msg : String)
  deriving DecidableEq, Repr

/-- Update applied to the most recent Stage Record of a progress list. -/
def updateLastRecord (f : StageRecord → StageRecord) :
    List StageRecord → List StageRecord
  | [] => []
  | [r] => [f r]
  | r :: rs => r :: updateLastRecord f rs

/-- Modelled from the spec: before starting a stage the Runner appends a Stage
Record with the stage's status and zero progress and moves the session status
to that stage; terminal sessions are immutable. -/
def startStage (s : Session) (st : Stage) : Session :=
  if s.status.isTerminal then s
  else
    { s with status := st.toStatus,
             progress := s.progress ++ [⟨st, st.toStatus, 0, false, none, none⟩] }

/-- Modelled from the spec: on stage success the Runner marks the current
Stage Record complete at 100 percent; terminal sessions are immutable. -/
def completeStage (s : Session) : Session :=
  if s.status.isTerminal then s
  else
    { s with progress := (updateLastRecord
        (fun r =>
          { r with progress_percentage := 100, completed := true, status := CloneStatus.completed })
        s.progress) }

/-- Modelled from the spec: on stage failure the Runner writes the error into
the Stage Record, sets the session status to `failed`, and records the
session-level `error_message`, halting the pipeline; terminal sessions are
immutable. -/
def failStage (s : Session) (msg : String) : Session :=
  if s.status.isTerminal then s
  else
    { s with status := .failed, error_message := some msg,
             progress := (updateLastRecord
               (fun r => { r with status := .failed, error := some msg })
               s.progress) }

/-- Modelled from the spec: after the last stage succeeds the Runner assembles
the result and marks the session completed; terminal sessions are
immutable. -/
def finishPipeline (s : Session) (res : CloneResult) : Session :=
  if s.status.isTerminal then s
  else { s with status := .completed, result := some res }

/-- Modelled from the spec: the sequence of committed Session Store snapshots
produced by running the remaining stages in order; `oc` gives each stage's
collaborator outcome and `res` the assembled result of a fully successful
run.  A failed stage halts the run. -/
def runStages (s : Session) (sts : List Stage) (oc : Stage → StageOutcome)
    (res : CloneResult) : List Session :=
  match sts with
  | [] => [finishPipeline s res]
  | st :: rest =>
    let s1 := startStage s st
    match oc st with
    | .success =>
      let s2 := completeStage s1
      s1 :: s2 :: runStages s2 rest oc res
    | .failure msg => [s1, failStage s1 msg]

/-- Modelled from the spec: a fresh session as initialized by the Session
Store's `create`: the given ID, status `pending`, empty progress, no result,
no error. -/
def createSession (req : CloneRequest) (id : String) : Session :=
  ⟨id, .pending, req, [], none, none⟩

/-- Modelled from the spec: the full sequence of observable snapshots of one
session over a pipeline run, starting from creation. -/
def pipelineTrace (req : CloneRequest) (id : String)
    (oc : Stage → StageOutcome) (res : CloneResult) : List Session :=
  createSession req id :: runStages (createSession req id) pipelineStages oc res

/-- Modelled from the spec: the Session Store, a mapping from IDs to sessions
plus a counter for allocating fresh IDs. -/
structure SessionStore where
  sessions : List (String × Session)
  nextId : Nat
  deriving DecidableEq, Repr

/-- Modelled from the spec: Session Store `get`. -/
def storeGet (store : SessionStore) (id : String) : Option Session :=
  (store.sessions.find? (fun p => p.1 = id)).map (fun p => p.2)

/-- Modelled from the spec: Session Store `create`: allocate a fresh ID,
initialize a `pending` session with empty progress, store it, return the
ID. -/
def storeCreate (store : SessionStore) (req : CloneRequest) :
    SessionStore × String :=
  let id := "session-" ++ toString store.nextId
  (⟨(id, createSession req id) :: store.sessions, store.nextId + 1⟩, id)

/-- Modelled from the spec: `submitClone` of the Status API: validate the
request URL, then create a `pending` session; the pipeline is only triggered
asynchronously afterwards, so the returned store snapshot is the one a caller
reads immediately after submission.  Validation failures never touch the
store. -/
def submitClone (parse : String → Option ParsedUrl) (store : SessionStore)
    (req : CloneRequest) : Except String (SessionStore × String) :=
  let v := validateUrl parse req.url
  if v.isValid then .ok (storeCreate store req)
  else .error (v.error.getD "Invalid URL")

/-- Modelled from the spec: `getStatus` of the Status API, a passthrough to
Session Store `get`. -/
def getStatus (store : SessionStore) (id : String) : Option Session :=
  storeGet store id

/-- View states of the `CloneInterface` component (src/unnamed/part_004). -/
inductive ViewState where
  | input
  | processing
  | results
  | error
  deriving DecidableEq, Repr

/-- Poller-relevant state of `CloneInterface`: the current view, the last
session snapshot, and whether the polling interval is installed
(`pollingInterval` not null). -/
structure PollState where
  view : ViewState
  currentSession : Option Session
  pollingActive : Bool
  deriving DecidableEq, Repr

/-- Embedding of one tick of the `setInterval` callback in `startPolling`
(src/unnamed/part_004): a failed `getStatus` call is caught and polling
continues unchanged; a `completed` response switches to the results view and
clears the interval; a `failed` response switches to the error view and
clears the interval; any other status only refreshes the snapshot. -/
def pollTick (st : PollState) (response : Except Unit Session) : PollState :=
  match response with
  | .error _ => st
  | .ok r =>
    if r.status = .completed then ⟨.results, some r, false⟩
    else if r.status = .failed then ⟨.error, some r, false⟩
    else ⟨st.view, some r, st.pollingActive⟩

/-- Number of status requests the poller issues over a sequence of scheduled
ticks: a tick only runs (and only issues a request) while the interval is
installed. -/
def requestsIssued (st : PollState) : List (Except Unit Session) → Nat
  | [] => 0
  | r :: rest =>
    if st.pollingActive then 1 + requestsIssued (pollTick st r) rest
    else requestsIssued st rest

/-- Error-body shape (the `ApiErrorType` of `types/api`) read from a non-ok
response; `message` is optional because the body is arbitrary JSON. -/
structure ErrBody where
  error : String
  message : Option String
  details : Option String
  deriving DecidableEq, Repr

/-- The `ApiError` value thrown by the client (services/api.ts lines 13-23). -/
structure ApiError where
  message : String
  status : Nat
  code : Option String
  details : Option String
  deriving DecidableEq, Repr

/-- Outcome of the platform `fetch` call, which the embedding takes as input:
either the promise rejects with an error message, or a response arrives with
its `ok` flag, status code, status text, and the two possible readings of its
JSON body (`Except` carries the parse-failure message). -/
inductive FetchResult (T : Type) where
  | thrown (msg : String)
  | response (ok : Bool) (status : Nat) (statusText : String)
      (parsedBody : Except String T) (parsedErr : Except String ErrBody)

/-- Embedding of `ApiClient.request` (services/api.ts lines 36-84).  On a
non-ok response the error body is parsed (with an `HTTP_ERROR` fallback when
parsing fails) and an `ApiError` carrying the HTTP status is thrown; the
outer catch rethrows `ApiError` unchanged and wraps any other exception - a
fetch rejection, or a JSON parse failure on the ok path - as an `ApiError`
with status 0 and code `NETWORK_ERROR`.  JavaScript `||` fallbacks also
replace an empty string. -/
def request {T : Type} (f : FetchResult T) : Except ApiError T :=
  match f with
  | .thrown msg => .error ⟨msg, 0, some "NETWORK_ERROR", none⟩
  | .response ok status statusText parsedBody parsedErr =>
    if ok then
      match parsedBody with
      | .ok t => .ok t
      | .error msg => .error ⟨msg, 0, some "NETWORK_ERROR", none⟩
    else
      let errorData : ErrBody :=
        match parsedErr with
        | .ok b => b
        | .error _ =>
          ⟨"HTTP_ERROR",
           some ("HTTP " ++ toString status ++ ": " ++ statusText), none⟩
      .error ⟨(match errorData.message with
               | some m => if m = "" then "Request failed" else m
               | none => "Request failed"),
              status, some errorData.error, errorData.details⟩

/-- Sample request used by concrete witnesses. -/
def sampleRequest : CloneRequest :=
  ⟨"https://example.com", .fast, true, true, 1, none⟩

/-- Sample result payload used by concrete witnesses. -/
def sampleResult : CloneResult :=
  ⟨"<html></html>", none, 90, 2, 1000⟩

theorem Stage.toStatus_facts (st : Stage) :
    (st.toStatus).isTerminal = false ∧ st.toStatus ≠ CloneStatus.completed ∧
    st.toStatus ≠ CloneStatus.failed := by
  cases st <;> exact ⟨rfl, by decide, by decide⟩

theorem CloneStatus.facts_of_not_terminal (c : CloneStatus)
    (h : c.isTerminal = false) :
    c.rank < 5 ∧ c ≠ CloneStatus.failed ∧ c ≠ CloneStatus.completed := by
  cases c <;> simp_all [CloneStatus.isTerminal, CloneStatus.rank]

theorem startStage_status (s : Session) (st : Stage)
    (h : s.status.isTerminal = false) :
    (startStage s st).status = st.toStatus := by
  simp [startStage, h]

theorem startStage_result (s : Session) (st : Stage) :
    (startStage s st).result = s.result := by
  unfold startStage
  split <;> rfl

theorem startStage_error (s : Session) (st : Stage) :
    (startStage s st).error_message = s.error_message := by
  unfold startStage
  split <;> rfl

theorem completeStage_status (s : Session) :
    (completeStage s).status = s.status := by
  unfold completeStage
  split <;> rfl

theorem completeStage_result (s : Session) :
    (completeStage s).result = s.result := by
  unfold completeStage
  split <;> rfl

theorem completeStage_error (s : Session) :
    (completeStage s).error_message = s.error_message := by
  unfold completeStage
  split <;> rfl

theorem failStage_eq (s : Session) (msg : String)
    (h : s.status.isTerminal = false) :
    (failStage s msg).status = CloneStatus.failed ∧
    (failStage s msg).error_message = some msg ∧
    (failStage s msg).result = s.result := by
  simp [failStage, h]

theorem finishPipeline_eq (s : Session) (res : CloneResult)
    (h : s.status.isTerminal = false) :
    (finishPipeline s res).status = CloneStatus.completed ∧
    (finishPipeline s res).result = some res ∧
    (finishPipeline s res).error_message = s.error_message := by
  simp [finishPipeline, h]

theorem runStages_result_error (sts : List Stage) :
    ∀ (s : Session) (oc : Stage → StageOutcome) (res : CloneResult),
      s.status.isTerminal = false → s.result = none → s.error_message = none →
      ∀ t ∈ runStages s sts oc res,
        (t.result.isSome ↔ t.status = CloneStatus.completed) ∧
        (t.error_message.isSome ↔ t.status = CloneStatus.failed) := by
  induction sts with
  | nil =>
    intro s oc res hterm hres herr t ht
    simp only [runStages, List.mem_singleton] at ht
    subst ht
    obtain ⟨h1, h2, h3⟩ := finishPipeline_eq s res hterm
    simp [h1, h2, h3, herr]
  | cons st rest ih =>
    intro s oc res hterm hres herr t ht
    have hstf := Stage.toStatus_facts st
    have hs1status := startStage_status s st hterm
    have hs1term : (startStage s st).status.isTerminal = false := by
      rw [hs1status]; exact hstf.1
    have hs1res : (startStage s st).result = none := by
      rw [startStage_result]; exact hres
    have hs1err : (startStage s st).error_message = none := by
      rw [startStage_error]; exact herr
    cases hoc : oc st with
    | success =>
      simp only [runStages, hoc, List.mem_cons] at ht
      rcases ht with rfl | rfl | ht
      · rw [hs1status, hs1res, hs1err]
        simp [hstf.2.1, hstf.2.2]
      · rw [completeStage_status, completeStage_result, completeStage_error,
          hs1status, hs1res, hs1err]
        simp [hstf.2.1, hstf.2.2]
      · exact ih (completeStage (startStage s st)) oc res
          (by rw [completeStage_status]; exact hs1term)
          (by rw [completeStage_result]; exact hs1res)
          (by rw [completeStage_error]; exact hs1err) t ht
    | failure msg =>
      simp only [runStages, hoc, List.mem_cons, List.mem_singleton] at ht
      rcases ht with rfl | rfl | hfalse
      · rw [hs1status, hs1res, hs1err]
        simp [hstf.2.1, hstf.2.2]
      · obtain ⟨h1, h2, h3⟩ := failStage_eq (startStage s st) msg hs1term
        rw [h1, h2, h3, hs1res]
        simp
      · exact absurd hfalse (by simp)

/-- C3: along every pipeline run, every observable session snapshot has
`result` present exactly when its status is `completed` and `error_message`
present exactly when its status is `failed`; consequently no snapshot ever
carries both a result and an error message. -/
theorem session_result_error_mutual_exclusion (req : CloneRequest)
    (id : String) (oc : Stage → StageOutcome) (res : CloneResult) :
    ∀ t ∈ pipelineTrace req id oc res,
      (t.result.isSome ↔ t.status = CloneStatus.completed) ∧
      (t.error_message.isSome ↔ t.status = CloneStatus.failed) ∧
      ¬(t.result.isSome = true ∧ t.error_message.isSome = true) := by
  intro t ht
  simp only [pipelineTrace, List.mem_cons] at ht
  have hmain :
      (t.result.isSome ↔ t.status = CloneStatus.completed) ∧
      (t.error_message.isSome ↔ t.status = CloneStatus.failed) := by
    rcases ht with rfl | ht
    · simp [createSession]
    · exact runStages_result_error pipelineStages (createSession req id) oc res
        rfl rfl rfl t ht
  refine ⟨hmain.1, hmain.2, ?_⟩
  rintro ⟨h1, h2⟩
  rw [hmain.1.mp h1] at *
  have := hmain.2.mp h2
  exact absurd this (by decide)

/-- Witness for C3: the freshly created snapshot of a concrete run. -/
theorem session_result_error_mutual_exclusion_witness :
    ((createSession sampleRequest "session-0").result.isSome ↔
      (createSession sampleRequest "session-0").status =
        CloneStatus.completed) ∧
    ((createSession sampleRequest "session-0").error_message.isSome ↔
      (createSession sampleRequest "session-0").status = CloneStatus.failed) ∧
    ¬((createSession sampleRequest "session-0").result.isSome = true ∧
      (createSession sampleRequest "session-0").error_message.isSome = true) :=
  session_result_error_mutual_exclusion sampleRequest "session-0"
    (fun _ => StageOutcome.success) sampleResult
    (createSession sampleRequest "session-0") (List.mem_cons_self _ _)

/-- One observable status transition allowed by the lifecycle: unchanged, a
strict forward move within the non-failed order, or a drop to `failed` from a
non-terminal status. -/
def allowedTransition (s t : Session) : Prop :=
  t.status = s.status ∨
  (s.status.rank < t.status.rank ∧ t.status ≠ CloneStatus.failed ∧
    s.status ≠ CloneStatus.failed) ∨
  (t.status = CloneStatus.failed ∧ s.status.isTerminal = false)

theorem runStages_chain (sts : List Stage) :
    ∀ (s : Session) (oc : Stage → StageOutcome) (res : CloneResult),
      s.status.isTerminal = false →
      (∀ st ∈ sts, s.status.rank < (st.toStatus).rank) →
      List.Pairwise (fun a b : Stage => (a.toStatus).rank < (b.toStatus).rank)
        sts →
      List.Chain' allowedTransition (s :: runStages s sts oc res) := by
  induction sts with
  | nil =>
    intro s oc res hterm _ _
    have hfacts := CloneStatus.facts_of_not_terminal s.status hterm
    obtain ⟨h1, _, _⟩ := finishPipeline_eq s res hterm
    simp only [runStages]
    refine List.chain'_cons.mpr ⟨?_, List.chain'_singleton _⟩
    right; left
    rw [h1]
    exact ⟨hfacts.1, by decide, hfacts.2.1⟩
  | cons st rest ih =>
    intro s oc res hterm hrank hpair
    have hfacts := CloneStatus.facts_of_not_terminal s.status hterm
    have hstf := Stage.toStatus_facts st
    have hs1status := startStage_status s st hterm
    have hs1term : (startStage s st).status.isTerminal = false := by
      rw [hs1status]; exact hstf.1
    have hforward : allowedTransition s (startStage s st) := by
      right; left
      rw [hs1status]
      exact ⟨hrank st (List.mem_cons_self _ _), hstf.2.2, hfacts.2.1⟩
    cases hoc : oc st with
    | success =>
      simp only [runStages, hoc]
      refine List.chain'_cons.mpr ⟨hforward, List.chain'_cons.mpr ⟨?_, ?_⟩⟩
      · left
        exact completeStage_status (startStage s st)
      · apply ih
        · rw [completeStage_status]; exact hs1term
        · intro st' hst'
          rw [completeStage_status, hs1status]
          exact (List.pairwise_cons.mp hpair).1 st' hst'
        · exact (List.pairwise_cons.mp hpair).2
    | failure msg =>
      simp only [runStages, hoc]
      refine List.chain'_cons.mpr ⟨hforward,
        List.chain'_cons.mpr ⟨?_, List.chain'_singleton _⟩⟩
      right; right
      exact ⟨(failStage_eq (startStage s st) msg hs1term).1, hs1term⟩

/-- C4: along every pipeline run, consecutive snapshots either keep the
session status, move it strictly forward through the order `pending,
analyzing, scraping, generating, refining, completed`, or drop it to `failed`
from a non-terminal status; and a session whose status is `completed` or
`failed` is left unchanged by every Runner operation, remaining only readable
and deletable. -/
theorem session_status_monotonic (req : CloneRequest) (id : String)
    (oc : Stage → StageOutcome) (res : CloneResult) :
    List.Chain' allowedTransition (pipelineTrace req id oc res) ∧
    ∀ s : Session, s.status.isTerminal = true →
      (∀ st, startStage s st = s) ∧ completeStage s = s ∧
      (∀ msg, failStage s msg = s) ∧ ∀ r, finishPipeline s r = s := by
  constructor
  · unfold pipelineTrace
    apply runStages_chain
    · rfl
    · intro st hst
      have : (createSession req id).status = CloneStatus.pending := rfl
      rw [this]
      cases st <;> decide
    · simp only [pipelineStages]
      refine List.pairwise_cons.mpr ⟨?_, List.pairwise_cons.mpr ⟨?_,
        List.pairwise_cons.mpr ⟨?_, List.pairwise_singleton _ _⟩⟩⟩ <;>
        intro b hb <;> fin_cases hb <;> decide
  · intro s h
    exact ⟨fun st => by simp [startStage, h], by simp [completeStage, h],
      fun msg => by simp [failStage, h], fun r => by simp [finishPipeline, h]⟩

/-- Witness for C4: a concrete run's trace is a chain, and a concrete
completed session is fixed by `startStage`. -/
theorem session_status_monotonic_witness :
    List.Chain' allowedTransition
      (pipelineTrace sampleRequest "session-0" (fun _ => StageOutcome.success)
        sampleResult) ∧
    startStage ⟨"done", CloneStatus.completed, sampleRequest, [],
        some sampleResult, none⟩ Stage.analyzing =
      ⟨"done", CloneStatus.completed, sampleRequest, [],
        some sampleResult, none⟩ :=
  ⟨(session_status_monotonic sampleRequest "session-0"
      (fun _ => StageOutcome.success) sampleResult).1,
    ((session_status_monotonic sampleRequest "session-0"
      (fun _ => StageOutcome.success) sampleResult).2
      ⟨"done", CloneStatus.completed, sampleRequest, [],
        some sampleResult, none⟩ rfl).1 Stage.analyzing⟩

theorem requestsIssued_inactive (st : PollState)
    (h : st.pollingActive = false) :
    ∀ l, requestsIssued st l = 0 := by
  intro l
  induction l with
  | nil => rfl
  | cons r rest ih => simp [requestsIssued, h, ih]

/-- C5: a polling tick whose `getStatus` response carries a terminal status
(`completed` or `failed`) clears the polling interval, and no further status
requests are ever issued afterwards; a tick with any non-terminal status
leaves the interval installed. -/
theorem poller_stops_on_terminal (st : PollState) (r : Session)
    (h : st.pollingActive = true) :
    ((pollTick st (Except.ok r)).pollingActive = false ↔
      (r.status = CloneStatus.completed ∨ r.status = CloneStatus.failed)) ∧
    ((r.status = CloneStatus.completed ∨ r.status = CloneStatus.failed) →
      ∀ rest, requestsIssued (pollTick st (Except.ok r)) rest = 0) := by
  constructor
  · cases hr : r.status <;> simp [pollTick, hr, h]
  · intro hterm rest
    apply requestsIssued_inactive
    rcases hterm with h1 | h1 <;> simp [pollTick, h1]

/-- Witness for C5: a tick seeing a completed session stops the poller. -/
theorem poller_stops_on_terminal_witness :
    ((pollTick ⟨ViewState.processing, none, true⟩
        (Except.ok ⟨"done", CloneStatus.completed, sampleRequest, [],
          some sampleResult, none⟩)).pollingActive = false ↔
      ((⟨"done", CloneStatus.completed, sampleRequest, [],
          some sampleResult, none⟩ : Session).status = CloneStatus.completed ∨
        (⟨"done", CloneStatus.completed, sampleRequest, [],
          some sampleResult, none⟩ : Session).status = CloneStatus.failed)) ∧
    (((⟨"done", CloneStatus.completed, sampleRequest, [],
          some sampleResult, none⟩ : Session).status = CloneStatus.completed ∨
        (⟨"done", CloneStatus.completed, sampleRequest, [],
          some sampleResult, none⟩ : Session).status = CloneStatus.failed) →
      ∀ rest, requestsIssued (pollTick ⟨ViewState.processing, none, true⟩
        (Except.ok ⟨"done", CloneStatus.completed, sampleRequest, [],
          some sampleResult, none⟩)) rest = 0) :=
  poller_stops_on_terminal ⟨ViewState.processing, none, true⟩
    ⟨"done", CloneStatus.completed, sampleRequest, [],
      some sampleResult, none⟩ rfl

/-- C6: for every submission that passes validation, reading the session
immediately after `submitClone` yields exactly the freshly created session,
whose status is `pending` and whose progress list is empty. -/
theorem submitClone_initial_status (parse : String → Option ParsedUrl)
    (store : SessionStore) (req : CloneRequest)
    (h : (validateUrl parse req.url).isValid = true) :
    ∃ store' id, submitClone parse store req = Except.ok (store', id) ∧
      getStatus store' id = some (createSession req id) ∧
      (createSession req id).status = CloneStatus.pending ∧
      (createSession req id).progress = [] := by
  refine ⟨(storeCreate store req).1, (storeCreate store req).2, ?_, ?_, rfl,
    rfl⟩
  · simp [submitClone, h]
  · show getStatus
      ⟨("session-" ++ toString store.nextId,
        createSession req ("session-" ++ toString store.nextId)) ::
          store.sessions, store.nextId + 1⟩
      ("session-" ++ toString store.nextId) = _
    unfold getStatus storeGet
    rw [List.find?_cons_of_pos _ (by simp)]
    rfl

/-- Parser fixture mapping the sample URL to its hostname, standing in for
the browser URL parser in concrete witnesses. -/
def sampleParse : String → Option ParsedUrl :=
  fun s => if s = "https://example.com" then some ⟨"example.com"⟩ else none

/-- Witness for C6 on a concrete valid submission against an empty store. -/
theorem submitClone_initial_status_witness :
    ∃ store' id,
      submitClone sampleParse ⟨[], 0⟩ sampleRequest =
        Except.ok (store', id) ∧
      getStatus store' id = some (createSession sampleRequest id) ∧
      (createSession sampleRequest id).status = CloneStatus.pending ∧
      (createSession sampleRequest id).progress = [] :=
  submitClone_initial_status sampleParse ⟨[], 0⟩ sampleRequest (by decide)

/-- C7: every session status value is one of the seven `CLONE_STATUS` values,
each of those seven values is a status, and the four middle values are
exactly the pipeline's stage names in the execution order `analyzing,
scraping, generating, refining`. -/
theorem status_vocabulary_exact :
    (∀ s : CloneStatus, s.toName ∈ CLONE_STATUS_values) ∧
    ([CloneStatus.pending, CloneStatus.analyzing, CloneStatus.scraping,
        CloneStatus.generating, CloneStatus.refining, CloneStatus.completed,
        CloneStatus.failed].map CloneStatus.toName = CLONE_STATUS_values) ∧
    (pipelineStages.map (fun st => (st.toStatus).toName) =
      ["analyzing", "scraping", "generating", "refining"]) ∧
    (CLONE_STATUS_values =
      ["pending"] ++ pipelineStages.map (fun st => (st.toStatus).toName) ++
        ["completed", "failed"]) := by
  refine ⟨fun s => ?_, by decide, by decide, by decide⟩
  cases s <;> decide

/-- C10: every failure of `ApiClient.request` surfaces as an `ApiError` and
nothing else: a non-ok HTTP response yields an `ApiError` whose status equals
the HTTP status code, with the message taken from the response body whenever
it parses as JSON with a non-empty message; a fetch rejection or a JSON parse
failure on the ok path is wrapped as status 0 with code `NETWORK_ERROR`; and
an ok response with a parsable body returns the parsed body. -/
theorem request_error_taxonomy {T : Type} (f : FetchResult T) :
    (∀ status statusText pB pE,
      f = FetchResult.response false status statusText pB pE →
      ∃ msg code det, request f = Except.error ⟨msg, status, code, det⟩) ∧
    (∀ status statusText pB b,
      f = FetchResult.response false status statusText pB (Except.ok b) →
      ∀ m, b.message = some m → m ≠ "" →
        request f = Except.error ⟨m, status, some b.error, b.details⟩) ∧
    (∀ msg, f = FetchResult.thrown msg →
      request f = Except.error ⟨msg, 0, some "NETWORK_ERROR", none⟩) ∧
    (∀ status statusText m pE,
      f = FetchResult.response true status statusText (Except.error m) pE →
      request f = Except.error ⟨m, 0, some "NETWORK_ERROR", none⟩) ∧
    (∀ status statusText t pE,
      f = FetchResult.response true status statusText (Except.ok t) pE →
      request f = Except.ok t) := by
  refine ⟨?_, ?_, ?_, ?_, ?_⟩
  · rintro status statusText pB pE rfl
    exact ⟨_, _, _, rfl⟩
  · rintro status statusText pB b rfl m hm hne
    simp [request, hm, hne]
  · rintro msg rfl
    rfl
  · rintro status statusText m pE rfl
    rfl
  · rintro status statusText t pE rfl
    rfl

/-- Witness for C10: a rejected fetch is wrapped as a network `ApiError`. -/
theorem request_error_taxonomy_witness :
    @request Nat (FetchResult.thrown "network down") =
      Except.error ⟨"network down", 0, some "NETWORK_ERROR", none⟩ :=
  (@request_error_taxonomy Nat (FetchResult.thrown "network down")).2.2.1
    "network down" rfl

end WebCloner
